import Mathlib

/-!
Verification development for the alertmanager sentry gateway
(src/sentry-gateway.go). The program receives Alertmanager webhook
messages over HTTP, renders each alert through an html/template
template, and forwards each alert to Sentry as one raven packet.

The shallow embedding below translates the data model and the
operations of the Go source into executable Lean definitions:
  - key/value maps (Go map indexing with empty-string default),
  - the html/template escaping applied to substituted values,
  - the parsed form of the default template and template execution
    under the missingkey option set at line 96 of the source,
  - the worker loop (lines 156-189) as a trace of observable events,
  - the webhook HTTP handler (lines 106-119) and the Go ServeMux
    pattern match for the single registered pattern,
  - the unbuffered channel created at line 103 and the shutdown
    sequence of run (lines 136-153) and main (lines 48-52).
-/

/-- One label or annotation map, as an association list in insertion
order. Models the Go string-to-string maps of an Alertmanager alert. -/
abbrev KV := List (String × String)

/-- Go map indexing m[k] on a string map: the value stored at k, or the
empty string (the zero value) when k is absent. -/
def kvGet (m : KV) (k : String) : String :=
  match m.find? (fun p => p.1 == k) with
  | some p => p.2
  | none => ""

/-- Whether key k is present in the map. -/
def kvHas (m : KV) (k : String) : Bool :=
  m.any (fun p => p.1 == k)

/-- One alert of an Alertmanager webhook message
(prometheus/alertmanager template.Alert). Timestamps are modelled as
integers; the worker only forwards them opaquely. -/
structure Alert where
  status : String
  labels : KV
  annotations : KV
  startsAt : Int
  endsAt : Int
  generatorURL : String
deriving Repr, DecidableEq

/-- The decoded inbound payload (prometheus/alertmanager
notify.WebhookMessage): an ordered sequence of alerts plus envelope
fields the worker does not read. -/
structure WebhookMessage where
  version : String
  groupKey : String
  receiver : String
  status : String
  alerts : List Alert
deriving Repr, DecidableEq

/-- html/template escaping of one character in a plain text context:
the five HTML-significant characters are replaced by entities, every
other character passes through unchanged. -/
def escapeChar (c : Char) : String :=
  if c = '<' then "&lt;"
  else if c = '>' then "&gt;"
  else if c = '&' then "&amp;"
  else if c = Char.ofNat 34 then "&#34;"
  else if c = Char.ofNat 39 then "&#39;"
  else String.singleton c

/-- html/template escaping of a substituted value: the gateway compiles
its template with the html/template package (source line 9), so every
value interpolated in text context is HTML-escaped. -/
def htmlEscape (s : String) : String :=
  String.join (s.data.map escapeChar)

/-- The missingkey template option. The gateway sets missingkey=zero at
source line 96; the error variant models the alternative configuration
under which a missing key aborts execution. -/
inductive MissingKeyOption
  | zero
  | error
deriving Repr, DecidableEq

/-- One node of a parsed template: literal text, a reference to a label
of the alert, or a reference to one of its annotations. -/
inductive TmplNode
  | text (s : String)
  | labelRef (k : String)
  | annotationRef (k : String)
deriving Repr, DecidableEq

/-- Execution of one map reference under the given missingkey option:
a present key yields its escaped value; a missing key yields the escaped
zero value under missingkey=zero and fails under missingkey=error. -/
def execRef (opt : MissingKeyOption) (m : KV) (k : String) : Option String :=
  if kvHas m k then some (htmlEscape (kvGet m k))
  else
    match opt with
    | MissingKeyOption.zero => some (htmlEscape "")
    | MissingKeyOption.error => none

/-- Execution of one template node against one alert. -/
def execNode (opt : MissingKeyOption) (a : Alert) : TmplNode → Option String
  | TmplNode.text s => some s
  | TmplNode.labelRef k => execRef opt a.labels k
  | TmplNode.annotationRef k => execRef opt a.annotations k

/-- Execution of a whole template: the concatenation of the node
outputs, failing as soon as one node fails. -/
def execTemplate (opt : MissingKeyOption) (a : Alert) : List TmplNode → Option String
  | [] => some ""
  | n :: ns =>
    match execNode opt a n, execTemplate opt a ns with
    | some s, some rest => some (s ++ rest)
    | _, _ => none

/-- The default template string of the source (line 30), kept verbatim
apart from the template action delimiters. -/
def defaultTemplateNodes : List TmplNode :=
  [ TmplNode.labelRef "alertname"
  , TmplNode.text " - "
  , TmplNode.labelRef "namespace"
  , TmplNode.text "/"
  , TmplNode.labelRef "pod_name"
  , TmplNode.text "\n"
  , TmplNode.annotationRef "message" ]

/-- Rendering as the gateway performs it with the default template:
missingkey=zero, html escaping of substituted values. -/
def gatewayRender (a : Alert) : Option String :=
  execTemplate MissingKeyOption.zero a defaultTemplateNodes

/-- Plain-text substitution of the default template, without the HTML
escaping. Spec-side comparison definition: what rendering would produce
if the values were substituted literally. -/
def renderDefaultRaw (a : Alert) : String :=
  kvGet a.labels "alertname" ++ " - " ++ kvGet a.labels "namespace" ++ "/"
    ++ kvGet a.labels "pod_name" ++ "\n" ++ kvGet a.annotations "message"

/-- The raven packet the worker constructs per alert (source lines
172-181). The timestamp is the capture time, passed in as now. -/
structure Packet where
  timestamp : Int
  message : String
  firingSince : Int
  firingUntil : Int
  logger : String
  fingerprint : List String
  serverName : String
deriving Repr, DecidableEq

/-- Packet construction from the rendered (or fallback) message and the
alert, exactly as at source lines 172-181. -/
def buildPacket (now : Int) (msg : String) (a : Alert) : Packet :=
  { timestamp := now
  , message := msg
  , firingSince := a.startsAt
  , firingUntil := a.endsAt
  , logger := "alertmanager"
  , fingerprint := [kvGet a.labels "alertname", kvGet a.labels "namespace", kvGet a.labels "pod_name"]
  , serverName := kvGet a.labels "namespace" ++ "/" ++ kvGet a.labels "pod_name" }

/-- The message the worker dispatches for one alert: the successful
render, or on render failure the alertname label when non-empty and the
literal fallback otherwise (source lines 161-171). -/
def alertMessage (render : Alert → Option String) (a : Alert) : String :=
  match render a with
  | some s => s
  | none =>
    if kvGet a.labels "alertname" = "" then "fallback"
    else kvGet a.labels "alertname"

/-- The packet the worker dispatches for one alert. -/
def processAlert (render : Alert → Option String) (now : Int) (a : Alert) : Packet :=
  buildPacket now (alertMessage render a) a

/-- Observable events of one worker iteration, in program order:
a stderr diagnostic for a failed render, a raven.Capture call with its
packet and tag map, the synchronous wait on the capture acknowledgment
channel, and the per-alert log line. -/
inductive WorkerEvent
  | logInvalidTemplate
  | capture (p : Packet) (tags : KV)
  | awaitAck
  | logDispatched (alertname : String)
deriving Repr, DecidableEq

/-- The event trace of the worker body for one alert (source lines
158-186): render, fall back on failure, capture, await the ack, log. -/
def workerAlertTrace (render : Alert → Option String) (now : Int) (a : Alert) :
    List WorkerEvent :=
  match render a with
  | none =>
    [ WorkerEvent.logInvalidTemplate
    , WorkerEvent.capture (processAlert render now a) a.labels
    , WorkerEvent.awaitAck
    , WorkerEvent.logDispatched (kvGet a.labels "alertname") ]
  | some _ =>
    [ WorkerEvent.capture (processAlert render now a) a.labels
    , WorkerEvent.awaitAck
    , WorkerEvent.logDispatched (kvGet a.labels "alertname") ]

/-- The event trace of the worker for one dequeued webhook message: the
alerts are processed strictly in their original sequence order. -/
def workerTrace (render : Alert → Option String) (now : Int) (wh : WebhookMessage) :
    List WorkerEvent :=
  wh.alerts.flatMap (workerAlertTrace render now)

/-- The packets passed to raven.Capture in a trace, in order. -/
def capturedPackets : List WorkerEvent → List Packet
  | [] => []
  | WorkerEvent.capture p _ :: es => p :: capturedPackets es
  | _ :: es => capturedPackets es

/-- Whether every capture in the trace is immediately followed by the
synchronous acknowledgment wait: serialized dispatch, at most one
in-flight submission at a time. -/
def captureImmediatelyAcked : List WorkerEvent → Bool
  | [] => true
  | WorkerEvent.capture _ _ :: WorkerEvent.awaitAck :: es => captureImmediatelyAcked es
  | WorkerEvent.capture _ _ :: _ => false
  | _ :: es => captureImmediatelyAcked es

/-- The outcome of decoding an HTTP request body as a webhook message:
either the decoded message or a JSON decode error. -/
inductive DecodeResult
  | ok (wh : WebhookMessage)
  | malformed (err : String)
deriving Repr, DecidableEq

/-- The observable effect of one invocation of the webhook handler
(source lines 106-119): the messages it enqueues, the stderr lines it
writes, and any response body or explicit status it writes. -/
structure HandlerEffect where
  enqueued : List WebhookMessage
  stderrLines : List String
  responseBody : Option String
  statusWritten : Option Nat
deriving Repr, DecidableEq

/-- The webhook handler: on decode failure it writes a diagnostic to
stderr and returns without enqueuing and without touching the response;
on success it enqueues the decoded message, also without touching the
response. -/
def webhookHandler : DecodeResult → HandlerEffect
  | DecodeResult.malformed e =>
    { enqueued := []
    , stderrLines := ["Invalid webhook: " ++ e]
    , responseBody := none
    , statusWritten := none }
  | DecodeResult.ok wh =>
    { enqueued := [wh]
    , stderrLines := []
    , responseBody := none
    , statusWritten := none }

/-- The number of dispatch attempts (raven.Capture calls) that the
messages enqueued by one handler invocation eventually cause. -/
def dispatchAttemptsOf (render : Alert → Option String) (now : Int)
    (e : HandlerEffect) : Nat :=
  (e.enqueued.flatMap (fun wh => capturedPackets (workerTrace render now wh))).length

/-- An inbound HTTP request as the handler sees it: method, URL path,
and the result of decoding its body. -/
structure HttpRequest where
  method : String
  path : String
  body : DecodeResult
deriving Repr, DecidableEq

/-- The single pattern the gateway registers on its ServeMux
(source line 106). -/
def registeredPattern : String := "/"

/-- Go http.ServeMux pattern matching: a pattern ending in a slash is a
subtree pattern and matches every path it prefixes; any other pattern
matches only the identical path. -/
def serveMuxMatches (pattern : String) (path : String) : Bool :=
  if pattern.data.getLast? = some '/' then pattern.data.isPrefixOf path.data
  else pattern == path

/-- The gateway serving one request: if the registered pattern matches
the path, the webhook handler runs (it never inspects the method);
otherwise the ServeMux default handler answers 404 and nothing is
enqueued. -/
def gatewayServe (req : HttpRequest) : HandlerEffect :=
  if serveMuxMatches registeredPattern req.path then webhookHandler req.body
  else
    { enqueued := []
    , stderrLines := []
    , responseBody := some "404 page not found"
    , statusWritten := some 404 }

/-- The state of a Go channel of webhook messages: its fixed buffer
capacity, the buffered messages, and whether a receiver is currently
blocked waiting on it. -/
structure ChanState where
  capacity : Nat
  buffer : List WebhookMessage
  receiverWaiting : Bool
deriving Repr, DecidableEq

/-- Well-formedness of a channel state: the buffer never exceeds the
capacity. -/
def ChanState.wf (c : ChanState) : Prop :=
  c.buffer.length ≤ c.capacity

/-- Go len on a channel: the number of buffered elements. -/
def chanLen (c : ChanState) : Nat :=
  c.buffer.length

/-- The capacity of the intake channel the gateway creates at source
line 103: make without a buffer size argument creates an unbuffered
channel, capacity zero. -/
def hookChanCapacity : Nat := 0

/-- Whether a send on the channel completes without blocking: either a
receiver is already waiting (rendezvous) or there is free buffer
space. -/
def enqueueCompletesImmediately (c : ChanState) : Bool :=
  c.receiverWaiting || decide (c.buffer.length < c.capacity)

/-- The number of sleep iterations the shutdown drain loop (source
lines 148-150) performs before observing depth zero, given the
successive depth observations; none when no observation is zero (the
loop would spin forever). -/
def pollsUntilEmpty : List Nat → Option Nat
  | [] => none
  | d :: ds => if d = 0 then some 0 else (pollsUntilEmpty ds).map (· + 1)

/-- The outcome of the shutdown phase of run (source lines 140-153). -/
structure ShutdownOutcome where
  sleeps : Nat
  queueClosed : Bool
  runError : Bool
deriving Repr, DecidableEq

/-- The shutdown phase of run after the termination signal: if the
listener shutdown fails within its grace period, run returns that error
at once, never reaching the drain loop or the close; if it succeeds,
run busy-polls the channel depth until it observes zero, closes the
channel and returns nil. The depth list is the successive values of
len on the intake channel; none models the drain loop spinning
forever. -/
def runShutdown (listenerShutdownOk : Bool) (depths : List Nat) :
    Option ShutdownOutcome :=
  if listenerShutdownOk then
    (pollsUntilEmpty depths).map
      (fun k => { sleeps := k, queueClosed := true, runError := false })
  else some { sleeps := 0, queueClosed := false, runError := true }

/-- The process exit code chosen by main (source lines 48-52): 1 when
run returned an error, 0 otherwise. -/
def mainExitCode (runError : Bool) : Nat :=
  if runError then 1 else 0

/-- The packets ever dispatched once the intake channel is closed
during shutdown: the worker range loop drains the remaining buffered
messages and then terminates. A handler goroutine still blocked on its
send when the channel closes never completes the handoff (a send on a
closed channel panics in that goroutine), so messages held by blocked
senders contribute nothing. -/
def dispatchesAfterClose (render : Alert → Option String) (now : Int)
    (alreadyDispatched : List Packet) (c : ChanState) : List Packet :=
  alreadyDispatched ++ c.buffer.flatMap (fun wh => capturedPackets (workerTrace render now wh))

/-- The alert of the concrete scenario in the spec: PodDown in
namespace prod, pod web-1, one message annotation. -/
def podDownAlert : Alert :=
  { status := "firing"
  , labels := [("alertname", "PodDown"), ("namespace", "prod"), ("pod_name", "web-1")]
  , annotations := [("message", "pod unresponsive")]
  , startsAt := 0
  , endsAt := 0
  , generatorURL := "" }

/-- An alert with no labels and no annotations at all. -/
def emptyAlert : Alert :=
  { status := "firing"
  , labels := []
  , annotations := []
  , startsAt := 0
  , endsAt := 0
  , generatorURL := "" }

/-- An alert whose label and annotation values contain HTML-significant
characters. -/
def htmlAlert : Alert :=
  { status := "firing"
  , labels := [("alertname", "Down<1>"), ("namespace", "prod"), ("pod_name", "web-1")]
  , annotations := [("message", "a<b & c>")]
  , startsAt := 0
  , endsAt := 0
  , generatorURL := "" }

/-- A minimal webhook message with no alerts, used as a concrete
request body. -/
def emptyMessage : WebhookMessage :=
  { version := "4", groupKey := "", receiver := "sentry", status := "firing", alerts := [] }

/- Helper lemmas about worker traces. -/

theorem capturedPackets_append (xs ys : List WorkerEvent) :
    capturedPackets (xs ++ ys) = capturedPackets xs ++ capturedPackets ys := by
  induction xs with
  | nil => rfl
  | cons e es ih => cases e <;> simp [capturedPackets, ih]

theorem capturedPackets_workerAlertTrace (render : Alert → Option String)
    (now : Int) (a : Alert) :
    capturedPackets (workerAlertTrace render now a) = [processAlert render now a] := by
  unfold workerAlertTrace
  cases render a <;> simp [capturedPackets]

theorem acked_workerAlertTrace_append (render : Alert → Option String)
    (now : Int) (a : Alert) (es : List WorkerEvent) :
    captureImmediatelyAcked (workerAlertTrace render now a ++ es) =
      captureImmediatelyAcked es := by
  unfold workerAlertTrace
  cases render a <;> simp [captureImmediatelyAcked]

theorem workerTrace_alerts (render : Alert → Option String) (now : Int)
    (l : List Alert) :
    capturedPackets (l.flatMap (workerAlertTrace render now)) =
        l.map (processAlert render now) ∧
    captureImmediatelyAcked (l.flatMap (workerAlertTrace render now)) = true := by
  induction l with
  | nil => exact ⟨rfl, rfl⟩
  | cons a t ih =>
    refine ⟨?_, ?_⟩
    · simp only [List.flatMap_cons, capturedPackets_append,
        capturedPackets_workerAlertTrace, List.map_cons]
      simp [ih.1]
    · simp only [List.flatMap_cons, acked_workerAlertTrace_append]
      exact ih.2

/-- C1: for every webhook message the worker dequeues, the worker
performs exactly one raven.Capture call per alert — as many dispatch
attempts as there are alerts — the captured packets follow the alerts
in their original sequence order, and every capture is followed
immediately by the synchronous wait on its acknowledgment channel
before the next alert is processed. -/
theorem C1_worker_dispatches_each_alert_once_in_order
    (render : Alert → Option String) (now : Int) (wh : WebhookMessage) :
    (capturedPackets (workerTrace render now wh)).length = wh.alerts.length ∧
    capturedPackets (workerTrace render now wh) =
      wh.alerts.map (processAlert render now) ∧
    captureImmediatelyAcked (workerTrace render now wh) = true := by
  obtain ⟨h1, h2⟩ := workerTrace_alerts render now wh.alerts
  exact ⟨by simp [workerTrace, h1], by simpa [workerTrace] using h1, h2⟩

/-- C2: the spec's concrete scenario. Rendering the PodDown alert with
the default template yields exactly the two-line message, and the
packet built for it carries that message, the fingerprint list built
from alertname, namespace and pod_name, and the server name composed
from namespace and pod_name. -/
theorem C2_poddown_scenario (now : Int) :
    gatewayRender podDownAlert = some "PodDown - prod/web-1\npod unresponsive" ∧
    (processAlert gatewayRender now podDownAlert).message =
      "PodDown - prod/web-1\npod unresponsive" ∧
    (processAlert gatewayRender now podDownAlert).fingerprint =
      ["PodDown", "prod", "web-1"] ∧
    (processAlert gatewayRender now podDownAlert).serverName = "prod/web-1" := by
  exact ⟨rfl, rfl, rfl, rfl⟩

/-- C3: when rendering fails for an alert, the dispatched message is
the alertname label when it is present and non-empty and the literal
fallback otherwise; the failure is logged to stderr and the worker
still dispatches that alert (capture, acknowledgment wait, log line)
before moving on. -/
theorem C3_render_failure_fallback
    (render : Alert → Option String) (now : Int) (a : Alert)
    (h : render a = none) :
    alertMessage render a =
      (if kvGet a.labels "alertname" = "" then "fallback"
       else kvGet a.labels "alertname") ∧
    workerAlertTrace render now a =
      [ WorkerEvent.logInvalidTemplate
      , WorkerEvent.capture (processAlert render now a) a.labels
      , WorkerEvent.awaitAck
      , WorkerEvent.logDispatched (kvGet a.labels "alertname") ] := by
  constructor
  · unfold alertMessage
    rw [h]
  · unfold workerAlertTrace
    rw [h]

/-- Witness for C3 at a concrete failing renderer and the PodDown
alert. -/
theorem C3_witness :
    alertMessage (fun _ => none) podDownAlert =
      (if kvGet podDownAlert.labels "alertname" = "" then "fallback"
       else kvGet podDownAlert.labels "alertname") ∧
    workerAlertTrace (fun _ => none) 0 podDownAlert =
      [ WorkerEvent.logInvalidTemplate
      , WorkerEvent.capture (processAlert (fun _ => none) 0 podDownAlert)
          podDownAlert.labels
      , WorkerEvent.awaitAck
      , WorkerEvent.logDispatched (kvGet podDownAlert.labels "alertname") ] :=
  C3_render_failure_fallback (fun _ => none) 0 podDownAlert rfl

/-- Under missingkey=zero every single node executes successfully. -/
theorem execNode_zero_isSome (a : Alert) (n : TmplNode) :
    (execNode MissingKeyOption.zero a n).isSome = true := by
  cases n <;> simp [execNode, execRef] <;> split <;> simp

/-- C4: with the missingkey=zero option the gateway sets at startup,
template execution always succeeds, and a reference to a missing label
or annotation key substitutes the empty string rather than failing. -/
theorem C4_missing_keys_render_empty (a : Alert) (nodes : List TmplNode) :
    (execTemplate MissingKeyOption.zero a nodes).isSome = true ∧
    (∀ k, kvHas a.labels k = false →
      execNode MissingKeyOption.zero a (TmplNode.labelRef k) = some "") ∧
    (∀ k, kvHas a.annotations k = false →
      execNode MissingKeyOption.zero a (TmplNode.annotationRef k) = some "") := by
  refine ⟨?_, ?_, ?_⟩
  · induction nodes with
    | nil => rfl
    | cons n ns ih =>
      obtain ⟨s, hs⟩ := Option.isSome_iff_exists.mp (execNode_zero_isSome a n)
      obtain ⟨r, hr⟩ := Option.isSome_iff_exists.mp ih
      simp [execTemplate, hs, hr]
  · intro k hk
    simp [execNode, execRef, hk]
    rfl
  · intro k hk
    simp [execNode, execRef, hk]
    rfl

/-- Witness for C4 at the alert with no labels or annotations and the
default template. -/
theorem C4_witness :
    (execTemplate MissingKeyOption.zero emptyAlert defaultTemplateNodes).isSome = true ∧
    execNode MissingKeyOption.zero emptyAlert (TmplNode.labelRef "alertname") = some "" ∧
    execNode MissingKeyOption.zero emptyAlert (TmplNode.annotationRef "message") = some "" :=
  ⟨(C4_missing_keys_render_empty emptyAlert defaultTemplateNodes).1,
   (C4_missing_keys_render_empty emptyAlert defaultTemplateNodes).2.1 "alertname" rfl,
   (C4_missing_keys_render_empty emptyAlert defaultTemplateNodes).2.2 "message" rfl⟩

/-- C5: for a request whose body is malformed JSON the handler writes
one diagnostic line to stderr and returns: nothing is enqueued, no
dispatch attempt results, no response body and no explicit status are
written; and a well-formed request is still enqueued as usual, since
each handler invocation is independent. -/
theorem C5_malformed_body_swallowed
    (render : Alert → Option String) (now : Int) (e : String)
    (wh : WebhookMessage) :
    (webhookHandler (DecodeResult.malformed e)).enqueued = [] ∧
    dispatchAttemptsOf render now (webhookHandler (DecodeResult.malformed e)) = 0 ∧
    (webhookHandler (DecodeResult.malformed e)).stderrLines =
      ["Invalid webhook: " ++ e] ∧
    (webhookHandler (DecodeResult.malformed e)).responseBody = none ∧
    (webhookHandler (DecodeResult.malformed e)).statusWritten = none ∧
    (webhookHandler (DecodeResult.ok wh)).enqueued = [wh] := by
  refine ⟨rfl, ?_, rfl, rfl, rfl, rfl⟩
  simp [dispatchAttemptsOf, webhookHandler]

/-- C6: after the termination signal, when the listener shutdown
succeeds run busy-polls the channel depth, observes zero after the
polls the depth sequence dictates, closes the channel and returns nil,
and main exits with status 0; when the listener shutdown fails within
its grace period run returns the error without closing the channel and
main exits with the non-zero status 1. -/
theorem C6_shutdown_drain_and_exit_codes
    (depths : List Nat) (k : Nat) (h : pollsUntilEmpty depths = some k) :
    runShutdown true depths =
      some { sleeps := k, queueClosed := true, runError := false } ∧
    mainExitCode false = 0 ∧
    runShutdown false depths =
      some { sleeps := 0, queueClosed := false, runError := true } ∧
    mainExitCode true ≠ 0 := by
  refine ⟨?_, rfl, rfl, by decide⟩
  simp [runShutdown, h]

/-- Witness for C6 at the depth sequence observing 2 then 0: one sleep,
then close. -/
theorem C6_witness :
    runShutdown true [2, 0] =
      some { sleeps := 1, queueClosed := true, runError := false } ∧
    mainExitCode false = 0 ∧
    runShutdown false [2, 0] =
      some { sleeps := 0, queueClosed := false, runError := true } ∧
    mainExitCode true ≠ 0 :=
  C6_shutdown_drain_and_exit_codes [2, 0] 1 rfl

/-- C7 counterexample: the intake channel is created without a buffer
size, so its capacity is zero, and a send with no receiver waiting —
the worker busy dispatching — does not complete without blocking, even
with no message pending; the claim that enqueue never blocks regardless
of the worker being busy is false on the code. -/
theorem C7_counterexample :
    hookChanCapacity = 0 ∧
    enqueueCompletesImmediately
      { capacity := hookChanCapacity, buffer := [], receiverWaiting := false } =
      false := by
  decide

/-- C7 amended: the intake channel is an unbuffered, capacity-zero
channel, so the handoff is a rendezvous: an enqueue completes without
blocking exactly when the worker is already waiting to receive, and
blocks whenever it is not — regardless of how few messages are
pending. -/
theorem C7_enqueue_is_rendezvous (c : ChanState)
    (h : c.capacity = hookChanCapacity) :
    enqueueCompletesImmediately c = c.receiverWaiting := by
  simp [enqueueCompletesImmediately, h, hookChanCapacity]

/-- Witness for the amended C7 at a channel whose receiver is
waiting. -/
theorem C7_witness :
    enqueueCompletesImmediately
      { capacity := hookChanCapacity, buffer := [], receiverWaiting := true } =
      true :=
  C7_enqueue_is_rendezvous
    { capacity := hookChanCapacity, buffer := [], receiverWaiting := true } rfl

/-- C8 counterexample: the gateway registers the subtree pattern "/",
which matches every path, and the handler never inspects the request
method; a GET request to a different path with a well-formed body is
still decoded and enqueued, so decode-and-enqueue is not restricted to
POST requests on a single path. -/
theorem C8_counterexample :
    ("GET" : String) ≠ "POST" ∧
    ("/metrics" : String) ≠ registeredPattern ∧
    (gatewayServe
      { method := "GET", path := "/metrics", body := DecodeResult.ok emptyMessage }).enqueued =
      [emptyMessage] := by
  refine ⟨by decide, by decide, ?_⟩
  rfl

/-- C8 amended: the gateway registers the single catch-all pattern "/";
every request whose path begins with a slash — every cleaned HTTP
request path — reaches the webhook handler and is decoded and enqueued
on decode success, regardless of its method and of its path. -/
theorem C8_catch_all_any_method (req : HttpRequest)
    (h : req.path.data.head? = some '/') :
    gatewayServe req = webhookHandler req.body := by
  have hmatch : serveMuxMatches registeredPattern req.path = true := by
    unfold serveMuxMatches registeredPattern
    cases hd : req.path.data with
    | nil => simp [hd] at h
    | cons c t =>
      have hc : c = '/' := by simp [hd] at h; exact h
      simp [hd, hc, List.isPrefixOf]
  unfold gatewayServe
  rw [hmatch]
  simp

/-- Witness for the amended C8: a PUT request to the root path is
handled by the webhook handler. -/
theorem C8_witness :
    gatewayServe { method := "PUT", path := "/", body := DecodeResult.ok emptyMessage } =
      webhookHandler (DecodeResult.ok emptyMessage) :=
  C8_catch_all_any_method
    { method := "PUT", path := "/", body := DecodeResult.ok emptyMessage } rfl

/-- C9: because the template is compiled with the html/template engine,
an alert whose label and annotation values contain HTML-significant
characters renders with those characters replaced by HTML entities, so
the dispatched message differs from the literal substitution of the
alert values into the default template. -/
theorem C9_html_escaping_changes_message :
    gatewayRender htmlAlert =
      some "Down&lt;1&gt; - prod/web-1\na&lt;b &amp; c&gt;" ∧
    renderDefaultRaw htmlAlert = "Down<1> - prod/web-1\na<b & c>" ∧
    gatewayRender htmlAlert ≠ some (renderDefaultRaw htmlAlert) := by
  refine ⟨rfl, rfl, by decide⟩

/-- C10: the intake channel is unbuffered (capacity zero), so in every
well-formed channel state its observed depth is zero; the shutdown
drain loop therefore finds its condition false on the first evaluation
and run closes the channel with zero sleep iterations; and once the
channel is closed the worker drains only the (empty) buffer, so the set
of dispatched packets does not grow — a message held by a handler still
blocked on its send is never dispatched. -/
theorem C10_zero_capacity_immediate_close
    (c : ChanState) (hcap : c.capacity = hookChanCapacity) (hwf : c.wf)
    (ds : List Nat) (render : Alert → Option String) (now : Int)
    (alreadyDispatched : List Packet) :
    chanLen c = 0 ∧
    pollsUntilEmpty (chanLen c :: ds) = some 0 ∧
    runShutdown true (chanLen c :: ds) =
      some { sleeps := 0, queueClosed := true, runError := false } ∧
    dispatchesAfterClose render now alreadyDispatched c = alreadyDispatched := by
  have hlen : chanLen c = 0 := by
    have h0 : c.buffer.length ≤ 0 := by
      have := hwf
      unfold ChanState.wf at this
      rw [hcap] at this
      exact this
    exact Nat.le_zero.mp h0
  have hbuf : c.buffer = [] := List.eq_nil_of_length_eq_zero hlen
  refine ⟨hlen, ?_, ?_, ?_⟩
  · simp [pollsUntilEmpty, hlen]
  · simp [runShutdown, pollsUntilEmpty, hlen]
  · simp [dispatchesAfterClose, hbuf]

/-- Witness for C10 at the concrete unbuffered empty channel. -/
theorem C10_witness :
    chanLen { capacity := 0, buffer := [], receiverWaiting := false } = 0 ∧
    pollsUntilEmpty
      (chanLen { capacity := 0, buffer := [], receiverWaiting := false } :: []) =
      some 0 ∧
    runShutdown true
      (chanLen { capacity := 0, buffer := [], receiverWaiting := false } :: []) =
      some { sleeps := 0, queueClosed := true, runError := false } ∧
    dispatchesAfterClose (fun _ => none) 0 []
      { capacity := 0, buffer := [], receiverWaiting := false } = [] :=
  C10_zero_capacity_immediate_close
    { capacity := 0, buffer := [], receiverWaiting := false } rfl (Nat.le_refl 0)
    [] (fun _ => none) 0 []
